import Mathlib

/-!
Verification of the provider-abstraction and tiered-fallback LLM dispatch
core of the `ai-summary` repository (`src/llm_provider.py`), together with
the caller contract of `humanize_content` (`src/genai_helper.py`).

The Python code is shallowly embedded: exceptions become an explicit error
type carried in `Except`, the mutable `model_name` field becomes the third
component of the dispatch result, and outward adapter calls become total
functions supplied per adapter.
-/

/-- Python exceptions, as far as the dispatch core distinguishes them:
`generic` covers plain `Exception(msg)` (including backend errors),
`valueError` covers `ValueError(msg)`, and `notImplementedError` covers
`NotImplementedError(msg)` (the unsupported-media signal).  `str(e)` is
`errMsg`. -/
inductive PyError where
  | generic : String → PyError
  | valueError : String → PyError
  | notImplementedError : String → PyError
deriving DecidableEq, Repr

/-- `str(error)`: the message carried by the exception. -/
def errMsg : PyError → String
  | PyError.generic s => s
  | PyError.valueError s => s
  | PyError.notImplementedError s => s

/-- `except NotImplementedError` discriminates on the exception class. -/
def isNotImplementedError : PyError → Bool
  | PyError.notImplementedError _ => true
  | _ => false

/-- `LLMResponse` (`src/llm_provider.py` lines 13-17): the standardized
response object.  `raw_response` defaults to `None`; the dispatch logic
never inspects it, so its payload is modelled as a unit. -/
structure LLMResponse where
  text : String
  raw_response : Option Unit := none
deriving DecidableEq, Repr

/-- Python `s.lower()`: lowercase every character. -/
def strLower (s : String) : String := String.mk (s.data.map Char.toLower)

/-- Does `hay` start with `needle`? (helper for Python `in`). -/
def startsWithList : List Char → List Char → Bool
  | [], _ => true
  | _ :: _, [] => false
  | a :: as, b :: bs => a == b && startsWithList as bs

/-- Contiguous-substring test on character lists (helper for Python `in`). -/
def hasSubList (needle : List Char) : List Char → Bool
  | [] => needle.isEmpty
  | c :: rest => startsWithList needle (c :: rest) || hasSubList needle rest

/-- Python `needle in hay` on strings. -/
def pyIn (needle hay : String) : Bool := hasSubList needle.data hay.data

/-- `LiteLLMProvider.is_rate_limited` (`src/llm_provider.py` lines 102-109):
lowercases `str(error)` and searches for four phrases. -/
def LiteLLMProvider.is_rate_limited (error : PyError) : Bool :=
  let error_str := strLower (errMsg error)
  ["rate limit", "too many requests", "429", "quota exceeded"].any
    (fun phrase => pyIn phrase error_str)

/-- `GeminiProvider.is_rate_limited` (`src/llm_provider.py` lines 150-162):
lowercases `str(error)` and searches for six phrases, including
"resource exhausted". -/
def GeminiProvider.is_rate_limited (error : PyError) : Bool :=
  let error_str := strLower (errMsg error)
  ["quota exceeded", "resource exhausted", "rate limit", "too many requests",
   "429", "exceeded your current quota"].any
    (fun phrase => pyIn phrase error_str)

/-- `OpenRouterProvider.is_rate_limited` (`src/llm_provider.py` lines
284-291): same four phrases as the LiteLLM provider. -/
def OpenRouterProvider.is_rate_limited (error : PyError) : Bool :=
  let error_str := strLower (errMsg error)
  ["rate limit", "too many requests", "429", "quota exceeded"].any
    (fun phrase => pyIn phrase error_str)

/-- A configured provider adapter.  The outward backend call made by
`generate_content` is a function of the current `model_name` and the
prompt; `generate_content_with_media` is a function of the prompt and the
media file path (the dispatch layer never varies `model_name` on the media
path).  `is_rate_limited` is the adapter's classification predicate. -/
structure Adapter where
  model_name : String
  generate_content : String → String → Except PyError LLMResponse
  generate_content_with_media : String → String → Except PyError LLMResponse
  is_rate_limited : PyError → Bool

/-- `LLMService` state (`src/llm_provider.py` lines 296-301): the provider
registry in insertion order, the default provider name, and the two tier
candidate lists. -/
structure LLMService where
  providers : List (String × Adapter)
  default_provider : String
  heavy_models : List String
  light_models : List String

/-- Provider resolution shared by `generate_content` and
`generate_content_with_media` (`src/llm_provider.py` lines 406-414 and
437-444): `provider or self.default_provider`; if that name is not a key of
the registry, raise `ValueError("No LLM providers available")` when the
registry is empty, else substitute the first registered provider. -/
def resolveAdapter (svc : LLMService) (provider : Option String) :
    Except PyError (String × Adapter) :=
  let provider_name := provider.getD svc.default_provider
  match svc.providers.find? (fun kv => kv.1 == provider_name) with
  | some kv => Except.ok kv
  | none =>
    match svc.providers with
    | [] => Except.error (PyError.valueError "No LLM providers available")
    | kv :: _ => Except.ok kv

/-- The model loop of `LLMService.generate_content` (`src/llm_provider.py`
lines 416-427).  For each candidate the adapter's `model_name` is set to
the candidate and `generate_content` is invoked; on success the response is
returned; on a rate-limit-shaped error with fallback enabled the next
candidate is tried; any other error propagates.  The result carries the
number of adapter calls made and the adapter's final `model_name` (third
component; `cur` is its value on entry). -/
def tryModels (ad : Adapter) (prompt : String) (fallback : Bool) :
    List String → String → Except PyError LLMResponse × Nat × String
  | [], cur =>
      (Except.error (PyError.generic "All models in the tier failed."), 0, cur)
  | model :: rest, _ =>
    match ad.generate_content model prompt with
    | Except.ok r => (Except.ok r, 1, model)
    | Except.error e =>
      if fallback && ad.is_rate_limited e then
        match tryModels ad prompt fallback rest model with
        | (res, n, fin) => (res, n + 1, fin)
      else (Except.error e, 1, model)

/-- `LLMService.generate_content` (`src/llm_provider.py` lines 398-427).
Returns the call outcome, the number of adapter calls made, and the
resolved adapter's final `model_name` (`""` when no adapter was resolved).
-/
def LLMService.generate_content (svc : LLMService) (prompt : String)
    (provider : Option String) (model_tier : String) (fallback : Bool) :
    Except PyError LLMResponse × Nat × String :=
  let models := if model_tier == "heavy" then svc.heavy_models
                else svc.light_models
  match resolveAdapter svc provider with
  | Except.error e => (Except.error e, 0, "")
  | Except.ok (_, ad) => tryModels ad prompt fallback models ad.model_name

/-- `LLMService._get_fallback_provider` (`src/llm_provider.py` lines
478-483): the first registered provider other than the current one, if
any. -/
def getFallbackProvider (svc : LLMService) (current_provider : String) :
    Option (String × Adapter) :=
  match svc.providers.filter (fun kv => kv.1 != current_provider) with
  | [] => none
  | kv :: _ => some kv

/-- One outward adapter call, for the media dispatch trace:
`Call.media name prompt media_file` records
`providers[name].generate_content_with_media(prompt, media_file)`;
`Call.text name prompt` records `providers[name].generate_content(prompt)`.
-/
inductive Call where
  | media : String → String → String → Call
  | text : String → String → Call
deriving DecidableEq, Repr

/-- `LLMService.generate_content_with_media` (`src/llm_provider.py` lines
429-476).  On a rate-limit-shaped failure of the primary with fallback
enabled, one other provider (if any) retries with the identical prompt and
media path; if that raises `NotImplementedError`, a final text-only call is
made with the prompt prefixed by "[Media described in prompt] "; when no
fallback candidate exists, or for any other failure shape, the original
error is re-raised.  The result carries the trace of adapter calls made. -/
def LLMService.generate_content_with_media (svc : LLMService)
    (prompt : String) (media_file : String) (provider : Option String)
    (fallback : Bool) : Except PyError LLMResponse × List Call :=
  match resolveAdapter svc provider with
  | Except.error e => (Except.error e, [])
  | Except.ok (provider_name, ad) =>
    let trace1 := [Call.media provider_name prompt media_file]
    match ad.generate_content_with_media prompt media_file with
    | Except.ok r => (Except.ok r, trace1)
    | Except.error e =>
      let is_rate_limit := ad.is_rate_limited e
      if fallback && is_rate_limit then
        match getFallbackProvider svc provider_name with
        | some (fb_name, fb_ad) =>
          let trace2 := trace1 ++ [Call.media fb_name prompt media_file]
          match fb_ad.generate_content_with_media prompt media_file with
          | Except.ok r => (Except.ok r, trace2)
          | Except.error fe =>
            if isNotImplementedError fe then
              let degraded := "[Media described in prompt] " ++ prompt
              (fb_ad.generate_content fb_ad.model_name degraded,
               trace2 ++ [Call.text fb_name degraded])
            else (Except.error fe, trace2)
        | none => (Except.error e, trace1)
      else (Except.error e, trace1)

/-- C8: constructing an `LLMResponse` from any text `t` and reading back
its `text` field yields exactly `t`; the envelope is a pure carrier. -/
theorem llmresponse_text_roundtrip (t : String) (raw : Option Unit) :
    (LLMResponse.mk t raw).text = t := rfl

/-! ### Helper lemmas about the model-fallback loop -/

theorem tryModels_ok_at (ad : Adapter) (prompt : String) (r : LLMResponse) :
    ∀ (k : Nat) (models : List String) (hk : k < models.length) (cur : String),
    (∀ m ∈ models.take k, ∃ e, ad.generate_content m prompt = Except.error e ∧
        ad.is_rate_limited e = true) →
    ad.generate_content (models.get ⟨k, hk⟩) prompt = Except.ok r →
    tryModels ad prompt true models cur =
      (Except.ok r, k + 1, models.get ⟨k, hk⟩) := by
  intro k
  induction k with
  | zero =>
    intro models hk cur hfail hsucc
    match models, hk with
    | m :: ms, _ =>
      unfold tryModels
      rw [show ((m :: ms).get ⟨0, by omega⟩) = m from rfl] at hsucc
      rw [hsucc]
      rfl
  | succ k ih =>
    intro models hk cur hfail hsucc
    match models, hk with
    | m :: ms, hk =>
      obtain ⟨e, he, hrl⟩ := hfail m (by simp)
      have hk' : k < ms.length := Nat.lt_of_succ_lt_succ hk
      have hfail' : ∀ m' ∈ ms.take k, ∃ e',
          ad.generate_content m' prompt = Except.error e' ∧
          ad.is_rate_limited e' = true := by
        intro m' hm'
        exact hfail m' (by simp [List.take_succ_cons]; right; exact hm')
      have hsucc' : ad.generate_content (ms.get ⟨k, hk'⟩) prompt =
          Except.ok r := hsucc
      have hrec := ih ms hk' m hfail' hsucc'
      unfold tryModels
      rw [he]
      simp only [hrl, Bool.and_self, if_pos, hrec]
      rfl

theorem tryModels_all_rate_limited (ad : Adapter) (prompt : String) :
    ∀ (models : List String) (cur : String),
    (∀ m ∈ models, ∃ e, ad.generate_content m prompt = Except.error e ∧
        ad.is_rate_limited e = true) →
    tryModels ad prompt true models cur =
      (Except.error (PyError.generic "All models in the tier failed."),
       models.length, models.getLastD cur) := by
  intro models
  induction models with
  | nil => intro cur _; rfl
  | cons m ms ih =>
    intro cur hfail
    obtain ⟨e, he, hrl⟩ := hfail m (by simp)
    have hrec := ih m (fun m' hm' => hfail m' (by simp [hm']))
    unfold tryModels
    rw [he]
    simp only [hrl, Bool.and_self, if_pos, hrec]
    cases ms with
    | nil => rfl
    | cons m2 ms2 => rfl

theorem tryModels_stops_on_error (ad : Adapter) (prompt : String)
    (e : PyError) :
    ∀ (j : Nat) (models : List String) (hj : j < models.length)
      (cur : String) (fallback : Bool),
    (∀ m ∈ models.take j, fallback = true ∧ ∃ e',
        ad.generate_content m prompt = Except.error e' ∧
        ad.is_rate_limited e' = true) →
    ad.generate_content (models.get ⟨j, hj⟩) prompt = Except.error e →
    (fallback = false ∨ ad.is_rate_limited e = false) →
    tryModels ad prompt fallback models cur =
      (Except.error e, j + 1, models.get ⟨j, hj⟩) := by
  intro j
  induction j with
  | zero =>
    intro models hj cur fallback hfail he hstop
    match models, hj with
    | m :: ms, _ =>
      rw [show ((m :: ms).get ⟨0, by omega⟩) = m from rfl] at he
      unfold tryModels
      rw [he]
      have hcond : (fallback && ad.is_rate_limited e) = false := by
        rcases hstop with h | h <;> simp [h]
      simp [hcond]
  | succ j ih =>
    intro models hj cur fallback hfail he hstop
    match models, hj with
    | m :: ms, hj =>
      obtain ⟨hfb, e', he', hrl'⟩ := hfail m (by simp)
      subst hfb
      have hj' : j < ms.length := Nat.lt_of_succ_lt_succ hj
      have hrec := ih ms hj' m true
        (fun m' hm' => hfail m' (by simp [List.take_succ_cons]; right; exact hm'))
        he hstop
      unfold tryModels
      rw [he']
      simp only [hrl', Bool.and_self, if_pos, hrec]
      rfl

theorem tryModels_at_least_one_call (ad : Adapter) (prompt : String)
    (fallback : Bool) (m : String) (ms : List String) (cur : String) :
    1 ≤ (tryModels ad prompt fallback (m :: ms) cur).2.1 := by
  unfold tryModels
  cases hg : ad.generate_content m prompt with
  | ok r => simp
  | error e =>
    by_cases hc : (fallback && ad.is_rate_limited e) = true
    · simp only [hc, if_pos]
      cases htr : tryModels ad prompt fallback ms m with
      | mk res rest => simp
    · simp only [hc, if_neg]
      simp at hc
      simp [hc]

/-! ### Concrete fixtures used by the witnesses -/

/-- A configured adapter whose backend succeeds only on model "m2" and is
rate-limited (LiteLLM-style classification) on every other model. -/
def adAlpha : Adapter where
  model_name := "m0"
  generate_content := fun model _prompt =>
    if model == "m2" then Except.ok { text := "ok-m2" }
    else Except.error (PyError.generic "429 too many requests")
  generate_content_with_media := fun _prompt _media =>
    Except.error (PyError.generic "429 too many requests")
  is_rate_limited := LiteLLMProvider.is_rate_limited

/-- A service with the single provider "alpha" and heavy tier
["m1", "m2"]. -/
def svcAlpha : LLMService where
  providers := [("alpha", adAlpha)]
  default_provider := "alpha"
  heavy_models := ["m1", "m2"]
  light_models := ["light1"]

/-- An adapter that is rate-limited on model "n1" and fails with a
non-rate-limit error on every other model. -/
def adBeta : Adapter where
  model_name := "b0"
  generate_content := fun model _prompt =>
    if model == "n1" then Except.error (PyError.generic "429 too many requests")
    else Except.error (PyError.generic "invalid request")
  generate_content_with_media := fun _prompt _media =>
    Except.error (PyError.notImplementedError "media not supported")
  is_rate_limited := LiteLLMProvider.is_rate_limited

/-- A service with the single provider "beta" and heavy tier
["n1", "n2", "n3"]. -/
def svcBeta : LLMService where
  providers := [("beta", adBeta)]
  default_provider := "beta"
  heavy_models := ["n1", "n2", "n3"]
  light_models := ["n1"]

/-! ### C1, C2, C3: the tier-fallback loop -/

/-- C1: with fallback enabled, if the first `k` candidates of the selected
tier fail with rate-limit-shaped errors and the `(k+1)`th succeeds,
`LLMService.generate_content` returns that successful response after
exactly `k+1` adapter calls, tries no further candidates, and leaves the
adapter's `model_name` set to the `(k+1)`th candidate. -/
theorem generate_content_fallback_until_success (svc : LLMService)
    (provider : Option String) (provider_name : String) (ad : Adapter)
    (prompt model_tier : String) (models : List String) (k : Nat)
    (r : LLMResponse)
    (hres : resolveAdapter svc provider = Except.ok (provider_name, ad))
    (hmodels : (if model_tier == "heavy" then svc.heavy_models
                else svc.light_models) = models)
    (hk : k < models.length)
    (hfail : ∀ m ∈ models.take k, ∃ e,
        ad.generate_content m prompt = Except.error e ∧
        ad.is_rate_limited e = true)
    (hsucc : ad.generate_content (models.get ⟨k, hk⟩) prompt = Except.ok r) :
    svc.generate_content prompt provider model_tier true =
      (Except.ok r, k + 1, models.get ⟨k, hk⟩) := by
  simp only [LLMService.generate_content, hres, hmodels]
  exact tryModels_ok_at ad prompt r k models hk ad.model_name hfail hsucc

/-- Witness for C1: the spec scenario — heavy tier ["m1", "m2"], "m1"
rate-limited, "m2" succeeds with "ok-m2"; two adapter calls, final
model_name "m2". -/
theorem generate_content_fallback_until_success_witness :
    svcAlpha.generate_content "hi" (some "alpha") "heavy" true =
      (Except.ok { text := "ok-m2", raw_response := none }, 2, "m2") := by
  have h := generate_content_fallback_until_success svcAlpha (some "alpha")
    "alpha" adAlpha "hi" "heavy" ["m1", "m2"] 1
    { text := "ok-m2", raw_response := none }
    rfl rfl (by decide)
    (by
      intro m hm
      simp at hm
      subst hm
      exact ⟨PyError.generic "429 too many requests", rfl, by decide⟩)
    rfl
  simpa using h

/-- C2: with fallback enabled, if every candidate of the selected tier
fails with a rate-limit-shaped error, `LLMService.generate_content` raises
`Exception("All models in the tier failed.")` (AllModelsExhausted) after
exactly `models.length` adapter calls. -/
theorem generate_content_all_rate_limited_exhausts (svc : LLMService)
    (provider : Option String) (provider_name : String) (ad : Adapter)
    (prompt model_tier : String) (models : List String)
    (hres : resolveAdapter svc provider = Except.ok (provider_name, ad))
    (hmodels : (if model_tier == "heavy" then svc.heavy_models
                else svc.light_models) = models)
    (hfail : ∀ m ∈ models, ∃ e,
        ad.generate_content m prompt = Except.error e ∧
        ad.is_rate_limited e = true) :
    (svc.generate_content prompt provider model_tier true).1 =
      Except.error (PyError.generic "All models in the tier failed.") ∧
    (svc.generate_content prompt provider model_tier true).2.1 =
      models.length := by
  simp only [LLMService.generate_content, hres, hmodels]
  rw [tryModels_all_rate_limited ad prompt models ad.model_name hfail]
  exact ⟨rfl, rfl⟩

/-- Witness for C2: the light tier of `svcAlpha` has the single candidate
"light1", which is rate-limited; the call exhausts after 1 attempt. -/
theorem generate_content_all_rate_limited_exhausts_witness :
    (svcAlpha.generate_content "hi" (some "alpha") "light" true).1 =
      Except.error (PyError.generic "All models in the tier failed.") ∧
    (svcAlpha.generate_content "hi" (some "alpha") "light" true).2.1 = 1 := by
  have h := generate_content_all_rate_limited_exhausts svcAlpha
    (some "alpha") "alpha" adAlpha "hi" "light" ["light1"]
    rfl rfl
    (by
      intro m hm
      simp at hm
      subst hm
      exact ⟨PyError.generic "429 too many requests", rfl, by decide⟩)
  simpa using h

/-- C3: if the candidate at position `j` fails with an error that is not
retried — either fallback is disabled, or the error is not
rate-limit-shaped — `LLMService.generate_content` propagates that error
immediately after `j+1` adapter calls, regardless of the candidate's
position (all earlier candidates having been rate-limited retries). -/
theorem generate_content_propagates_fatal_error (svc : LLMService)
    (provider : Option String) (provider_name : String) (ad : Adapter)
    (prompt model_tier : String) (models : List String) (j : Nat)
    (e : PyError) (fallback : Bool)
    (hres : resolveAdapter svc provider = Except.ok (provider_name, ad))
    (hmodels : (if model_tier == "heavy" then svc.heavy_models
                else svc.light_models) = models)
    (hj : j < models.length)
    (hfail : ∀ m ∈ models.take j, fallback = true ∧ ∃ e',
        ad.generate_content m prompt = Except.error e' ∧
        ad.is_rate_limited e' = true)
    (he : ad.generate_content (models.get ⟨j, hj⟩) prompt = Except.error e)
    (hstop : fallback = false ∨ ad.is_rate_limited e = false) :
    svc.generate_content prompt provider model_tier fallback =
      (Except.error e, j + 1, models.get ⟨j, hj⟩) := by
  simp only [LLMService.generate_content, hres, hmodels]
  exact tryModels_stops_on_error ad prompt e j models hj ad.model_name
    fallback hfail he hstop

/-- Witness for C3: in `svcBeta`'s heavy tier ["n1", "n2", "n3"], "n1" is
rate-limited and "n2" fails with "invalid request" (not rate-limit-shaped);
the error propagates after 2 calls and "n3" is never tried. -/
theorem generate_content_propagates_fatal_error_witness :
    svcBeta.generate_content "hi" none "heavy" true =
      (Except.error (PyError.generic "invalid request"), 2, "n2") := by
  have h := generate_content_propagates_fatal_error svcBeta none "beta"
    adBeta "hi" "heavy" ["n1", "n2", "n3"] 1
    (PyError.generic "invalid request") true
    rfl rfl (by decide)
    (by
      intro m hm
      simp at hm
      subst hm
      exact ⟨rfl, PyError.generic "429 too many requests", rfl, by decide⟩)
    rfl
    (Or.inr (by decide))
  simpa using h

/-! ### C6: provider resolution -/

theorem resolveAdapter_empty (svc : LLMService) (provider : Option String)
    (hempty : svc.providers = []) :
    resolveAdapter svc provider =
      Except.error (PyError.valueError "No LLM providers available") := by
  unfold resolveAdapter
  rw [hempty]
  rfl

theorem resolveAdapter_substitutes_head (svc : LLMService)
    (kv : String × Adapter) (rest : List (String × Adapter))
    (requested : String)
    (hcons : svc.providers = kv :: rest)
    (hmiss : ∀ kv' ∈ svc.providers, kv'.1 ≠ requested) :
    resolveAdapter svc (some requested) = Except.ok kv := by
  have hnone : svc.providers.find? (fun kv' => kv'.1 == requested) = none := by
    apply List.find?_eq_none.mpr
    intro x hx
    simp only [Bool.not_eq_true, beq_eq_false_iff_ne, ne_eq]
    exact hmiss x hx
  unfold resolveAdapter
  simp only [Option.getD_some, hnone]
  rw [hcons]

/-- A service with an empty provider registry. -/
def svcEmpty : LLMService where
  providers := []
  default_provider := "litellm"
  heavy_models := ["m1"]
  light_models := ["m1"]

/-- C6: when the requested provider name (or the default) is not in the
registry, `LLMService.generate_content` raises
`ValueError("No LLM providers available")` (NoProviderAvailable) if the
registry is empty, and otherwise silently substitutes the first registered
provider and proceeds — the model loop runs on the first adapter with no
error raised for the unrecognized name. -/
theorem generate_content_provider_resolution (svc : LLMService) :
    (svc.providers = [] →
      ∀ (prompt : String) (provider : Option String)
        (model_tier : String) (fallback : Bool),
        svc.generate_content prompt provider model_tier fallback =
          (Except.error (PyError.valueError "No LLM providers available"),
           0, ""))
    ∧ (∀ (kv : String × Adapter) (rest : List (String × Adapter)),
        svc.providers = kv :: rest →
        ∀ requested : String, (∀ kv' ∈ svc.providers, kv'.1 ≠ requested) →
        ∀ (prompt model_tier : String) (fallback : Bool),
          svc.generate_content prompt (some requested) model_tier fallback =
            tryModels kv.2 prompt fallback
              (if model_tier == "heavy" then svc.heavy_models
               else svc.light_models) kv.2.model_name) := by
  constructor
  · intro hempty prompt provider model_tier fallback
    simp only [LLMService.generate_content,
      resolveAdapter_empty svc provider hempty]
  · intro kv rest hcons requested hmiss prompt model_tier fallback
    simp only [LLMService.generate_content,
      resolveAdapter_substitutes_head svc kv rest requested hcons hmiss]

/-- Witness for C6: an empty registry fails fast, and requesting the
unregistered name "gamma" against `svcAlpha` silently proceeds with
"alpha" (the only registered provider) and succeeds. -/
theorem generate_content_provider_resolution_witness :
    svcEmpty.generate_content "hi" none "heavy" true =
      (Except.error (PyError.valueError "No LLM providers available"),
       0, "") ∧
    svcAlpha.generate_content "hi" (some "gamma") "heavy" true =
      (Except.ok { text := "ok-m2", raw_response := none }, 2, "m2") := by
  constructor
  · exact (generate_content_provider_resolution svcEmpty).1 rfl
      "hi" none "heavy" true
  · have h := (generate_content_provider_resolution svcAlpha).2
      ("alpha", adAlpha) [] rfl "gamma" (by decide) "hi" "heavy" true
    rw [h]
    rfl

/-! ### C4 and C7: the media fallback path -/

/-- A two-provider service: "alpha" (rate-limited on media) followed by
"beta" (raises `NotImplementedError` on media, non-rate-limit error on
text). -/
def svcTwo : LLMService where
  providers := [("alpha", adAlpha), ("beta", adBeta)]
  default_provider := "alpha"
  heavy_models := ["m1", "m2"]
  light_models := ["light1"]

/-- C4: with fallback enabled, if the primary provider's media call raises
a rate-limit-shaped error and a second provider is registered, that
provider's `generate_content_with_media` is invoked with the identical
prompt and media path; if it raises `NotImplementedError`, a third and
final attempt calls its text-only `generate_content` with the prompt
prefixed by "[Media described in prompt] "; and globally the dispatch
makes at most 3 adapter calls (one provider hop at most). -/
theorem media_fallback_chain (svc : LLMService) :
    (∀ (provider : Option String) (provider_name : String) (ad : Adapter)
       (fb_name : String) (fb_ad : Adapter) (prompt media_file : String)
       (e : PyError) (msg : String),
       resolveAdapter svc provider = Except.ok (provider_name, ad) →
       ad.generate_content_with_media prompt media_file = Except.error e →
       ad.is_rate_limited e = true →
       getFallbackProvider svc provider_name = some (fb_name, fb_ad) →
       fb_ad.generate_content_with_media prompt media_file =
         Except.error (PyError.notImplementedError msg) →
       svc.generate_content_with_media prompt media_file provider true =
         (fb_ad.generate_content fb_ad.model_name
            ("[Media described in prompt] " ++ prompt),
          [Call.media provider_name prompt media_file,
           Call.media fb_name prompt media_file,
           Call.text fb_name ("[Media described in prompt] " ++ prompt)]))
    ∧ (∀ (prompt media_file : String) (provider : Option String)
         (fallback : Bool),
         (svc.generate_content_with_media prompt media_file provider
            fallback).2.length ≤ 3) := by
  constructor
  · intro provider provider_name ad fb_name fb_ad prompt media_file e msg
      hres hme hrl hfb hni
    simp only [LLMService.generate_content_with_media, hres, hme, hrl,
      Bool.and_self, if_pos, hfb, hni, isNotImplementedError]
    rfl
  · intro prompt media_file provider fallback
    unfold LLMService.generate_content_with_media
    cases hres : resolveAdapter svc provider with
    | error e => simp
    | ok kv =>
      obtain ⟨pn, ad⟩ := kv
      cases hm : ad.generate_content_with_media prompt media_file with
      | ok r => simp [hm]
      | error e =>
        simp only [hm]
        by_cases hc : (fallback && ad.is_rate_limited e) = true
        · rw [if_pos hc]
          cases hfb : getFallbackProvider svc pn with
          | none => simp [hfb]
          | some kv2 =>
            obtain ⟨fbn, fbad⟩ := kv2
            simp only [hfb]
            cases hm2 : fbad.generate_content_with_media prompt media_file with
            | ok r => simp [hm2]
            | error fe =>
              simp only [hm2]
              by_cases hni : isNotImplementedError fe = true
              · rw [if_pos hni]; simp
              · rw [if_neg hni]; simp
        · rw [if_neg hc]; simp

/-- Witness for C4: "alpha" rate-limited on media, "beta" registered;
"beta" retries the media call with the identical arguments, raises
`NotImplementedError`, and the third attempt is text-only with the
prefixed prompt (here "beta"'s text call fails, and that error is the
final result). -/
theorem media_fallback_chain_witness :
    svcTwo.generate_content_with_media "p" "f.mp3" (some "alpha") true =
      (Except.error (PyError.generic "invalid request"),
       [Call.media "alpha" "p" "f.mp3",
        Call.media "beta" "p" "f.mp3",
        Call.text "beta" "[Media described in prompt] p"]) := by
  have h := (media_fallback_chain svcTwo).1 (some "alpha") "alpha" adAlpha
    "beta" adBeta "p" "f.mp3" (PyError.generic "429 too many requests")
    "media not supported" rfl rfl (by decide) rfl rfl
  rw [h]
  rfl

/-- C7 (amended): with fallback enabled, if the primary provider's media
call raises a rate-limit-shaped error but no second provider is registered,
the original rate-limit error is re-raised after the single primary call;
no `NoProviderAvailable` (`ValueError`) is raised. -/
theorem media_rate_limit_no_fallback_candidate (svc : LLMService)
    (provider : Option String) (provider_name : String) (ad : Adapter)
    (prompt media_file : String) (e : PyError)
    (hres : resolveAdapter svc provider = Except.ok (provider_name, ad))
    (hme : ad.generate_content_with_media prompt media_file = Except.error e)
    (hrl : ad.is_rate_limited e = true)
    (hnofb : getFallbackProvider svc provider_name = none) :
    svc.generate_content_with_media prompt media_file provider true =
      (Except.error e, [Call.media provider_name prompt media_file]) := by
  simp only [LLMService.generate_content_with_media, hres, hme, hrl,
    Bool.and_self, if_pos, hnofb]

/-- Witness for the amended C7: `svcAlpha` has a single provider whose
media call is rate-limited; the call re-raises that error after one
attempt. -/
theorem media_rate_limit_no_fallback_candidate_witness :
    svcAlpha.generate_content_with_media "p" "f.mp3" (some "alpha") true =
      (Except.error (PyError.generic "429 too many requests"),
       [Call.media "alpha" "p" "f.mp3"]) :=
  media_rate_limit_no_fallback_candidate svcAlpha (some "alpha") "alpha"
    adAlpha "p" "f.mp3" (PyError.generic "429 too many requests")
    rfl rfl (by decide) rfl

/-- Counterexample for C7 as stated: in the single-provider service
`svcAlpha`, a rate-limit-shaped media failure does not produce
`ValueError("No LLM providers available")` (NoProviderAvailable); the
original backend error is the result. -/
theorem media_no_fallback_counterexample :
    (svcAlpha.generate_content_with_media "p" "f.mp3" (some "alpha")
        true).1 =
      Except.error (PyError.generic "429 too many requests") ∧
    (svcAlpha.generate_content_with_media "p" "f.mp3" (some "alpha")
        true).1 ≠
      Except.error (PyError.valueError "No LLM providers available") := by
  constructor
  · rfl
  · intro h
    rw [show (svcAlpha.generate_content_with_media "p" "f.mp3" (some "alpha")
        true).1 = Except.error (PyError.generic "429 too many requests")
        from rfl] at h
    simp at h

/-! ### C5: the rate-limit classification predicates -/

/-- Counterexample for C5 as stated: the message "resource exhausted"
contains (case-insensitively) the substring "resource exhausted", yet the
LiteLLM and OpenRouter adapters' `is_rate_limited` return false on it;
only the Gemini adapter recognizes that phrase. -/
theorem is_rate_limited_resource_exhausted_counterexample :
    pyIn "resource exhausted"
      (strLower (errMsg (PyError.generic "resource exhausted"))) = true ∧
    LiteLLMProvider.is_rate_limited
      (PyError.generic "resource exhausted") = false ∧
    OpenRouterProvider.is_rate_limited
      (PyError.generic "resource exhausted") = false := by
  refine ⟨by decide, by decide, by decide⟩

/-- C5 (amended): the LiteLLM and OpenRouter adapters' `is_rate_limited`
return true for any error whose message contains, case-insensitively, one
of "rate limit", "too many requests", "429", "quota exceeded"; the Gemini
adapter additionally recognizes "resource exhausted"; all three return
false for the message "invalid request". -/
theorem is_rate_limited_phrases (e : PyError) :
    ((pyIn "rate limit" (strLower (errMsg e)) = true ∨
      pyIn "too many requests" (strLower (errMsg e)) = true ∨
      pyIn "429" (strLower (errMsg e)) = true ∨
      pyIn "quota exceeded" (strLower (errMsg e)) = true) →
      LiteLLMProvider.is_rate_limited e = true ∧
      OpenRouterProvider.is_rate_limited e = true) ∧
    ((pyIn "rate limit" (strLower (errMsg e)) = true ∨
      pyIn "too many requests" (strLower (errMsg e)) = true ∨
      pyIn "429" (strLower (errMsg e)) = true ∨
      pyIn "quota exceeded" (strLower (errMsg e)) = true ∨
      pyIn "resource exhausted" (strLower (errMsg e)) = true) →
      GeminiProvider.is_rate_limited e = true) ∧
    LiteLLMProvider.is_rate_limited (PyError.generic "invalid request")
      = false ∧
    OpenRouterProvider.is_rate_limited (PyError.generic "invalid request")
      = false ∧
    GeminiProvider.is_rate_limited (PyError.generic "invalid request")
      = false := by
  refine ⟨?_, ?_, by decide, by decide, by decide⟩
  · intro h
    constructor <;>
    · simp only [LiteLLMProvider.is_rate_limited,
        OpenRouterProvider.is_rate_limited, List.any_cons, List.any_nil,
        Bool.or_eq_true, Bool.or_false]
      rcases h with h | h | h | h <;> simp [h]
  · intro h
    simp only [GeminiProvider.is_rate_limited, List.any_cons, List.any_nil,
      Bool.or_eq_true, Bool.or_false]
    rcases h with h | h | h | h | h <;> simp [h]

/-- Witness for the amended C5: instantiated at the mixed-case message
"429 Rate Limit". -/
theorem is_rate_limited_phrases_witness :
    pyIn "rate limit"
      (strLower (errMsg (PyError.generic "429 Rate Limit"))) = true ∧
    LiteLLMProvider.is_rate_limited (PyError.generic "429 Rate Limit")
      = true ∧
    OpenRouterProvider.is_rate_limited (PyError.generic "429 Rate Limit")
      = true ∧
    GeminiProvider.is_rate_limited (PyError.generic "429 Rate Limit")
      = true := by
  have h1 := (is_rate_limited_phrases (PyError.generic "429 Rate Limit")).1
    (Or.inl (by decide))
  have h2 := (is_rate_limited_phrases (PyError.generic "429 Rate Limit")).2.1
    (Or.inl (by decide))
  exact ⟨by decide, h1.1, h1.2, h2⟩

/-! ### C9: the humanize_content caller contract -/

/-- The prompt template built by `humanize_content`
(`src/genai_helper.py` lines 335-356). -/
def humanize_prompt (content : String) : String :=
  "\nContent: " ++ content ++
  "\n\nRewrite this content to make it more natural. Requirements:\n" ++
  "- Use a professional tone like a tech journalist writing for their blog\n" ++
  "- Remove any stiff or formal language, but keep the main concepts\n" ++
  "- Dive deeper into the topic and provide more context if possible\n" ++
  "- Keep the key information and examples\n" ++
  "- Make it feel like it was written by a human, not AI\n" ++
  "- Keep it in Traditional Chinese\n" ++
  "- Return only the rewritten content, no other text\n" ++
  "- Includes important quotes from speakers (use direct quotations with attribution)\n" ++
  "- Supporting evidence, examples, and case studies mentioned\n" ++
  "- Any specialized terminology or concepts explained\n" ++
  "- Connections between different segments of the discussion\n" ++
  "- Context for the topics discussed (historical background, relevant current events, etc.)\n" ++
  "- Areas of agreement and disagreement between speakers\n" ++
  "- Questions raised but not fully answered\n" ++
  "- Recommended resources mentioned during the episode\n\n" ++
  "Structure the digest with clear headings and sections for easy navigation. Maintain the tone and perspective of the original speakers while presenting the information accurately.\n"

/-- `humanize_content` (`src/genai_helper.py` lines 323-363): dispatches
the humanize prompt at the heavy tier through the service; on success it
returns `format_html_content(response.text.strip())` (the HTML formatting
step is abstracted as the parameter `fmt`, `.strip()` is `String.trim`);
on any exception it returns the original content unchanged. -/
def humanize_content (fmt : String → String) (svc : LLMService)
    (content : String) : String :=
  match (svc.generate_content (humanize_prompt content) none "heavy"
      true).1 with
  | Except.ok response => fmt response.text.trim
  | Except.error _ => content

/-- C9: if the underlying dispatch call made by `humanize_content` raises
any exception, `humanize_content` returns the original content string
unchanged rather than propagating the failure. -/
theorem humanize_content_returns_original_on_error (fmt : String → String)
    (svc : LLMService) (content : String) (e : PyError)
    (h : (svc.generate_content (humanize_prompt content) none "heavy"
        true).1 = Except.error e) :
    humanize_content fmt svc content = content := by
  unfold humanize_content
  rw [h]

/-- Witness for C9: against the empty registry the dispatch raises, and
`humanize_content` hands back the original content. -/
theorem humanize_content_returns_original_on_error_witness :
    (svcEmpty.generate_content (humanize_prompt "original text") none
        "heavy" true).1 =
      Except.error (PyError.valueError "No LLM providers available") ∧
    humanize_content id svcEmpty "original text" = "original text" :=
  ⟨rfl, humanize_content_returns_original_on_error id svcEmpty
    "original text" (PyError.valueError "No LLM providers available") rfl⟩

/-! ### C10: model-list initialization -/

/-- Python `str.split(sep)` for a one-character separator: splits on every
occurrence and keeps empty pieces, so the result is never empty
(`"".split(',') == [""]`). -/
def pySplitChar (sep : Char) : List Char → List (List Char)
  | [] => [[]]
  | c :: rest =>
    if c == sep then [] :: pySplitChar sep rest
    else
      match pySplitChar sep rest with
      | [] => [[c]]
      | group :: groups => (c :: group) :: groups

/-- Python `s.split(sep)` on strings. -/
def pySplit (s : String) (sep : Char) : List String :=
  (pySplitChar sep s.data).map (fun cs => String.mk cs)

/-- The tier lists built by `LLMService.__init__` (`src/llm_provider.py`
lines 299-300): `os.getenv("HEAVY_MODELS", "").split(',')` and
`os.getenv("LIGHT_MODELS", "").split(',')`, for an environment `env`. -/
def initModelLists (env : String → Option String) :
    List String × List String :=
  (pySplit ((env "HEAVY_MODELS").getD "") ',',
   pySplit ((env "LIGHT_MODELS").getD "") ',')

theorem pySplitChar_ne_nil (sep : Char) :
    ∀ l : List Char, pySplitChar sep l ≠ [] := by
  intro l
  induction l with
  | nil => simp [pySplitChar]
  | cons c rest ih =>
    unfold pySplitChar
    by_cases hc : (c == sep) = true
    · simp [hc]
    · simp only [hc, Bool.false_eq_true, if_neg, if_false]
      cases hr : pySplitChar sep rest with
      | nil => simp
      | cons group groups => simp

/-- C10: for every environment, the heavy and light candidate lists are
non-empty (splitting the empty string on commas yields `[""]` when a
variable is unset); consequently, whenever a provider is resolved,
`LLMService.generate_content` performs at least one adapter attempt before
it can raise AllModelsExhausted. -/
theorem model_lists_nonempty_first_attempt (env : String → Option String) :
    (initModelLists env).1 ≠ [] ∧
    (initModelLists env).2 ≠ [] ∧
    pySplit "" ',' = [""] ∧
    (∀ (svc : LLMService) (prompt : String) (provider : Option String)
       (model_tier : String) (fallback : Bool) (provider_name : String)
       (ad : Adapter),
       resolveAdapter svc provider = Except.ok (provider_name, ad) →
       (if model_tier == "heavy" then svc.heavy_models
        else svc.light_models) ≠ [] →
       1 ≤ (svc.generate_content prompt provider model_tier
          fallback).2.1) := by
  refine ⟨?_, ?_, rfl, ?_⟩
  · simp only [initModelLists, pySplit, ne_eq, List.map_eq_nil_iff]
    exact pySplitChar_ne_nil ','  _
  · simp only [initModelLists, pySplit, ne_eq, List.map_eq_nil_iff]
    exact pySplitChar_ne_nil ','  _
  · intro svc prompt provider model_tier fallback provider_name ad hres hne
    obtain ⟨m, ms, hM⟩ := List.exists_cons_of_ne_nil hne
    simp only [LLMService.generate_content, hres, hM]
    exact tryModels_at_least_one_call ad prompt fallback m ms ad.model_name

/-- A service whose tier lists come from an environment with neither
HEAVY_MODELS nor LIGHT_MODELS set. -/
def svcUnconfigured : LLMService where
  providers := [("beta", adBeta)]
  default_provider := "beta"
  heavy_models := (initModelLists (fun _ => none)).1
  light_models := (initModelLists (fun _ => none)).2

/-- Witness for C10: with an empty environment the heavy list is `[""]`
and the dispatch makes one adapter attempt (with the empty string as the
model name). -/
theorem model_lists_nonempty_first_attempt_witness :
    (initModelLists (fun _ => none)).1 = [""] ∧
    1 ≤ (svcUnconfigured.generate_content "hi" none "heavy" true).2.1 := by
  refine ⟨rfl, ?_⟩
  exact (model_lists_nonempty_first_attempt (fun _ => none)).2.2.2
    svcUnconfigured "hi" none "heavy" true "beta" adBeta rfl (by decide)
